import Mathlib

/-!
Shallow embedding of the recipe-app-api backend (Django Ninja application):
the user API (`app/user/api.py`) and the recipe API (`app/recipe/api.py`).

Persistence is modelled as explicit state passing over lists of records;
The Django autoincrement primary keys are modelled by `nextUserId` /
`nextRecipeId` counters.  JWT tokens are modelled abstractly: a token is
either absent, unparseable, parseable but with a bad signature, or properly
signed with a payload `{user_id, exp}`; `jwt.decode` is then a total
function of the token and the current time.  Python `float` prices are
modelled as rationals.  Password hashing is abstracted to the identity
(the stored `password` field stands for the hash).
-/

/-- A row of the user table (`core.models` custom user):
`id` (autoincrement pk), `email`, `password` (hash, abstracted), `name`. -/
structure User where
  id : Nat
  email : String
  password : String
  name : String
deriving Repr, DecidableEq

/-- A row of the recipe table (`core.models.Recipe`): `id` (autoincrement pk),
`user_id` (foreign key to the owning user), and the content fields. -/
structure Recipe where
  id : Nat
  user_id : Nat
  title : String
  time_minutes : Int
  price : ℚ
  description : String
  link : String
deriving Repr, DecidableEq

/-- The database state: the two tables plus the autoincrement counters. -/
structure AppState where
  users : List User
  recipes : List Recipe
  nextUserId : Nat
  nextRecipeId : Nat
deriving Repr, DecidableEq

/-- Database well-formedness: primary keys are unique and below the
autoincrement counter (what a relational store guarantees). -/
def AppState.wf (st : AppState) : Prop :=
  (st.users.map User.id).Nodup ∧
  (st.recipes.map Recipe.id).Nodup ∧
  (∀ u ∈ st.users, u.id < st.nextUserId) ∧
  (∀ r ∈ st.recipes, r.id < st.nextRecipeId)

instance (st : AppState) : Decidable st.wf := by
  unfold AppState.wf; infer_instance

/-! ## JWT tokens -/

/-- The JWT claims this application encodes (`create_jwt_token`):
the subject user id and an absolute expiry time. -/
structure TokenPayload where
  user_id : Nat
  exp : Nat
deriving Repr, DecidableEq

/-- A bearer token as the server can observe it. -/
inductive Token where
  /-- no `Authorization: Bearer ...` header on the request -/
  | missing : Token
  /-- a header is present but the token cannot be parsed as a JWT -/
  | malformed : Token
  /-- parses as a JWT but the HS256 signature does not verify -/
  | badSignature (payload : TokenPayload) : Token
  /-- parses and the signature verifies against the process secret -/
  | signed (payload : TokenPayload) : Token
deriving Repr, DecidableEq

/-- Outcome of `jwt.decode(token, SECRET_KEY, algorithms=[HS256])`. -/
inductive JwtOutcome where
  | ok (payload : TokenPayload) : JwtOutcome
  | expiredSignatureError : JwtOutcome
  | invalidTokenError : JwtOutcome
deriving Repr, DecidableEq

/-- Model of `jwt.decode` as a function of the token and the current time: unparseable
or badly signed tokens raise `InvalidTokenError`, a verified token whose
`exp` is in the past raises `ExpiredSignatureError`, otherwise the payload
is returned. -/
def jwtDecode (tok : Token) (now : Nat) : JwtOutcome :=
  match tok with
  | .missing => .invalidTokenError
  | .malformed => .invalidTokenError
  | .badSignature _ => .invalidTokenError
  | .signed p => if p.exp < now then .expiredSignatureError else .ok p

/-- Function `decode_jwt_token` of `user/api.py`: decode and validate, mapping both
`ExpiredSignatureError` and `InvalidTokenError` to `None`. -/
def decode_jwt_token (tok : Token) (now : Nat) : Option TokenPayload :=
  match jwtDecode tok now with
  | .ok p => some p
  | .expiredSignatureError => none
  | .invalidTokenError => none

/-- Lookup `get_user_model().objects.filter(id=uid).first()` /
`get_user_model().objects.get(id=uid)` (with `DoesNotExist` mapped to
`none` by the callers below). -/
def findUser (users : List User) (uid : Nat) : Option User :=
  users.find? (fun u => u.id == uid)

/-- Method `JWTAuth.authenticate` of `recipe/api.py`: decode the token, look up the
user by the `user_id` of the payload; `ExpiredSignatureError`,
`InvalidTokenError` and `DoesNotExist` all yield `None`. -/
def recipeAuthenticate (users : List User) (tok : Token) (now : Nat) : Option User :=
  match jwtDecode tok now with
  | .ok p => findUser users p.user_id
  | .expiredSignatureError => none
  | .invalidTokenError => none

/-- Method `JWTAuth.authenticate` of `user/api.py`: `decode_jwt_token` then
`filter(id=user_id).first()`. -/
def userAuthenticate (users : List User) (tok : Token) (now : Nat) : Option User :=
  match decode_jwt_token tok now with
  | some p => findUser users p.user_id
  | none => none

/-! ## HTTP responses -/

/-- An endpoint outcome: a success status with a serialized body, or an
error status with a `detail` message. -/
inductive ApiResult (α : Type) where
  | success (status : Nat) (body : α) : ApiResult α
  | failure (status : Nat) (detail : String) : ApiResult α
deriving Repr, DecidableEq

/-- The HTTP status code of a result. -/
def ApiResult.status : ApiResult α → Nat
  | .success s _ => s
  | .failure s _ => s

/-- The `django-ninja` `HttpBearer` gate wrapping every authenticated
operation: a missing header or an `authenticate` returning `None` is
rejected with `401 Unauthorized` before the view runs; otherwise the view
runs with `request.auth` set to the user. -/
def bearerGate (auth : List User → Token → Nat → Option User)
    (users : List User) (tok : Token) (now : Nat)
    (view : Option User → α) (onReject : α) : α :=
  match tok with
  | .missing => onReject
  | _ =>
    match auth users tok now with
    | none => onReject
    | some u => view (some u)

/-! ## Recipe API schemas (`recipe/api.py`) -/

/-- Schema `RecipeSchema`: the create payload; `description` and `link` default to
the empty string when not supplied. -/
structure RecipeSchema where
  title : String
  time_minutes : Int
  price : ℚ
  description : String := ""
  link : String := ""
deriving Repr, DecidableEq

/-- Schema `RecipeOutSchema`: the serialized recipe (`RecipeSchema` plus `id`). -/
structure RecipeOutSchema where
  id : Nat
  title : String
  time_minutes : Int
  price : ℚ
  description : String
  link : String
deriving Repr, DecidableEq

/-- Serialization `RecipeOutSchema.from_orm` of a recipe row. -/
def RecipeOutSchema.from_orm (r : Recipe) : RecipeOutSchema :=
  ⟨r.id, r.title, r.time_minutes, r.price, r.description, r.link⟩

/-- Schema `RecipePartialUpdateSchema`: every field optional.  `some v` models a
field the client supplied (with a non-null value, so that
`payload.dict(exclude_unset=True)` contains it); `none` models a field
absent from the request body. -/
structure RecipePartialUpdateSchema where
  title : Option String := none
  time_minutes : Option Int := none
  price : Option ℚ := none
  description : Option String := none
  link : Option String := none
deriving Repr, DecidableEq

/-- Lookup `Recipe.objects.get(id=recipe_id, user=user)` with `DoesNotExist`
mapped to `none`: the owner-scoped lookup every detail view performs. -/
def Recipe.objects_get (recipes : List Recipe) (rid : Nat) (uid : Nat) : Option Recipe :=
  recipes.find? (fun r => r.id == rid && r.user_id == uid)

/-- The `setattr` loop of `update_recipe`: overwrite exactly the supplied
fields, leave absent ones untouched; `id` and `user` are not in the schema
and hence never touched. -/
def applyPartialUpdate (r : Recipe) (p : RecipePartialUpdateSchema) : Recipe :=
  { r with
    title := p.title.getD r.title
    time_minutes := p.time_minutes.getD r.time_minutes
    price := p.price.getD r.price
    description := p.description.getD r.description
    link := p.link.getD r.link }

/-- Model of `recipe.save()`: write the row back under its primary key. -/
def saveRecipe (recipes : List Recipe) (r : Recipe) : List Recipe :=
  recipes.map (fun x => if x.id == r.id then r else x)

/-- Model of `recipe.delete()`: remove the row with this primary key. -/
def deleteRecipeById (recipes : List Recipe) (rid : Nat) : List Recipe :=
  recipes.filter (fun x => x.id != rid)

/-! ## Recipe API endpoints

Each endpoint is the `bearerGate` (the `NinjaAPI(auth=JWTAuth())` layer)
around the view body; the view bodies keep the original
`if user is None` checks even where the gate makes them unreachable. -/

/-- The `401 {"detail": "Unauthorized"}` response `django-ninja` produces
when `HttpBearer` rejects a request. -/
def ninjaUnauthorized (α : Type) : ApiResult α := .failure 401 "Unauthorized"

/-- View body of `GET /recipes` (`list_recipes`): recipes filtered to the
authenticated user (an unauthenticated call would return `[]`, a branch the
auth gate makes unreachable). -/
def list_recipes_view (st : AppState) (user : Option User) : ApiResult (List Recipe) :=
  match user with
  | none => .success 200 []
  | some u => .success 200 (st.recipes.filter (fun r => r.user_id == u.id))

/-- Endpoint `GET /recipes` with the auth gate. -/
def list_recipes (st : AppState) (tok : Token) (now : Nat) : ApiResult (List Recipe) :=
  bearerGate recipeAuthenticate st.users tok now (list_recipes_view st)
    (ninjaUnauthorized _)

/-- View body of `POST /recipes` (`create_recipe`): reject a falsy title or
negative numeric field with 400, otherwise insert a fresh row owned by the
caller and return its serialization (the ninja default success status, 200). -/
def create_recipe_view (st : AppState) (user : Option User) (payload : RecipeSchema) :
    ApiResult RecipeOutSchema × AppState :=
  match user with
  | none => (.failure 401 "Authentication required", st)
  | some u =>
    if payload.title = "" ∨ payload.time_minutes < 0 ∨ payload.price < 0 then
      (.failure 400 "Invalid payload", st)
    else
      let r : Recipe :=
        ⟨st.nextRecipeId, u.id, payload.title, payload.time_minutes,
         payload.price, payload.description, payload.link⟩
      (.success 200 (RecipeOutSchema.from_orm r),
       { st with recipes := st.recipes ++ [r], nextRecipeId := st.nextRecipeId + 1 })

/-- Endpoint `POST /recipes` with the auth gate. -/
def create_recipe (st : AppState) (tok : Token) (now : Nat) (payload : RecipeSchema) :
    ApiResult RecipeOutSchema × AppState :=
  bearerGate recipeAuthenticate st.users tok now
    (fun u => create_recipe_view st u payload) (ninjaUnauthorized _, st)

/-- View body of `GET /{recipe_id}` (`get_recipe_detail`): owner-scoped
lookup; a missing row — including one owned by someone else — is 404. -/
def get_recipe_detail_view (st : AppState) (user : Option User) (recipe_id : Nat) :
    ApiResult Recipe :=
  match user with
  | none => .failure 401 "Authentication required"
  | some u =>
    match Recipe.objects_get st.recipes recipe_id u.id with
    | some r => .success 200 r
    | none => .failure 404 "Recipe not found"

/-- Endpoint `GET /{recipe_id}` with the auth gate. -/
def get_recipe_detail (st : AppState) (tok : Token) (now : Nat) (recipe_id : Nat) :
    ApiResult Recipe :=
  bearerGate recipeAuthenticate st.users tok now
    (fun u => get_recipe_detail_view st u recipe_id) (ninjaUnauthorized _)

/-- View body of `PATCH /{recipe_id}` (`update_recipe`): owner-scoped
lookup, then apply exactly the supplied fields and save; no field
validation is performed. -/
def update_recipe_view (st : AppState) (user : Option User) (recipe_id : Nat)
    (payload : RecipePartialUpdateSchema) : ApiResult RecipeOutSchema × AppState :=
  match user with
  | none => (.failure 401 "Authentication required", st)
  | some u =>
    match Recipe.objects_get st.recipes recipe_id u.id with
    | some r =>
      let r' := applyPartialUpdate r payload
      (.success 200 (RecipeOutSchema.from_orm r'),
       { st with recipes := saveRecipe st.recipes r' })
    | none => (.failure 404 "Recipe not found", st)

/-- Endpoint `PATCH /{recipe_id}` with the auth gate. -/
def update_recipe (st : AppState) (tok : Token) (now : Nat) (recipe_id : Nat)
    (payload : RecipePartialUpdateSchema) : ApiResult RecipeOutSchema × AppState :=
  bearerGate recipeAuthenticate st.users tok now
    (fun u => update_recipe_view st u recipe_id payload) (ninjaUnauthorized _, st)

/-- View body of `DELETE /{recipe_id}` (`delete_recipe`): owner-scoped
lookup, then delete the row; the view returns no body (200). -/
def delete_recipe_view (st : AppState) (user : Option User) (recipe_id : Nat) :
    ApiResult Unit × AppState :=
  match user with
  | none => (.failure 401 "Authentication required", st)
  | some u =>
    match Recipe.objects_get st.recipes recipe_id u.id with
    | some r => (.success 200 (), { st with recipes := deleteRecipeById st.recipes r.id })
    | none => (.failure 404 "Recipe not found", st)

/-- Endpoint `DELETE /{recipe_id}` with the auth gate. -/
def delete_recipe (st : AppState) (tok : Token) (now : Nat) (recipe_id : Nat) :
    ApiResult Unit × AppState :=
  bearerGate recipeAuthenticate st.users tok now
    (fun u => delete_recipe_view st u recipe_id) (ninjaUnauthorized _, st)

/-! ## User API schemas (`user/api.py`) -/

/-- Schema `UserCreateSchema`: registration payload; `password` carries a pydantic
`min_length=5` constraint enforced by the schema layer before the view. -/
structure UserCreateSchema where
  email : String
  password : String
  name : String
deriving Repr, DecidableEq

/-- Schema `UserOutSchema`: the serialized user (never includes the password). -/
structure UserOutSchema where
  email : String
  name : String
deriving Repr, DecidableEq

/-- Serialization `UserOutSchema.from_orm` of a user row. -/
def UserOutSchema.from_orm (u : User) : UserOutSchema := ⟨u.email, u.name⟩

/-- Schema `UserUpdateSchema`: the name-update payload. -/
structure UserUpdateSchema where
  name : String
deriving Repr, DecidableEq

/-- Schema `UserPasswordUpdateSchema`: the password-update payload, again with
pydantic `min_length=5`. -/
structure UserPasswordUpdateSchema where
  password : String
deriving Repr, DecidableEq

/-! ## User API endpoints -/

/-- The 422 response the ninja/pydantic schema layer produces when a
payload violates a schema constraint (e.g. `min_length`), before any view
code runs. -/
def ninjaValidationError (α : Type) : ApiResult α := .failure 422 "Unprocessable Entity"

/-- Endpoint `POST /users` (`create_user`), behind the schema layer: a password
shorter than 5 characters is rejected with 422 by pydantic before the view;
the view rejects an already-stored email (exact string match, as
`filter(email=...)` performs) with 400, and otherwise inserts a new user
and answers 201. -/
def create_user (st : AppState) (user_in : UserCreateSchema) :
    ApiResult UserOutSchema × AppState :=
  if user_in.password.length < 5 then (ninjaValidationError _, st)
  else if st.users.any (fun u => u.email == user_in.email) then
    (.failure 400 "User with this email already exists.", st)
  else
    let u : User := ⟨st.nextUserId, user_in.email, user_in.password, user_in.name⟩
    (.success 201 (UserOutSchema.from_orm u),
     { st with users := st.users ++ [u], nextUserId := st.nextUserId + 1 })

/-- Model of `user.save()` for a user row: write it back under its primary key. -/
def saveUser (users : List User) (u : User) : List User :=
  users.map (fun x => if x.id == u.id then u else x)

/-- View body of `PATCH /users/{user_id}` (`update_user_name`): look the
target up by id alone — no ownership check against the caller — set its
name and save; only an unknown id fails (404). -/
def update_user_name_view (st : AppState) (user_id : Nat) (data : UserUpdateSchema) :
    ApiResult UserOutSchema × AppState :=
  match findUser st.users user_id with
  | some u =>
    let u' := { u with name := data.name }
    (.success 200 (UserOutSchema.from_orm u'), { st with users := saveUser st.users u' })
  | none => (.failure 404 "User not found", st)

/-- Endpoint `PATCH /users/{user_id}` with its `auth=JWTAuth()` gate. -/
def update_user_name (st : AppState) (tok : Token) (now : Nat) (user_id : Nat)
    (data : UserUpdateSchema) : ApiResult UserOutSchema × AppState :=
  bearerGate userAuthenticate st.users tok now
    (fun _ => update_user_name_view st user_id data) (ninjaUnauthorized _, st)

/-- View body of `PATCH /users/{user_id}/password` (`update_user_password`):
again no ownership check; `user.set_password` is abstracted to storing the
new password. -/
def update_user_password_view (st : AppState) (user_id : Nat)
    (data : UserPasswordUpdateSchema) : ApiResult UserOutSchema × AppState :=
  match findUser st.users user_id with
  | some u =>
    let u' := { u with password := data.password }
    (.success 200 (UserOutSchema.from_orm u'), { st with users := saveUser st.users u' })
  | none => (.failure 404 "User not found", st)

/-- Endpoint `PATCH /users/{user_id}/password` with its `auth=JWTAuth()`
gate and its schema layer: `django-ninja` runs authentication (401) before
body validation, so the `min_length=5` check (422) fires only for an
authenticated request, and the view only ever sees a valid payload. -/
def update_user_password (st : AppState) (tok : Token) (now : Nat) (user_id : Nat)
    (data : UserPasswordUpdateSchema) : ApiResult UserOutSchema × AppState :=
  bearerGate userAuthenticate st.users tok now
    (fun _ =>
      if data.password.length < 5 then (ninjaValidationError _, st)
      else update_user_password_view st user_id data)
    (ninjaUnauthorized _, st)

/-- Endpoint `GET /users` (`list_users`): every user in the system, behind the auth
gate. -/
def list_users (st : AppState) (tok : Token) (now : Nat) : ApiResult (List UserOutSchema) :=
  bearerGate userAuthenticate st.users tok now
    (fun _ => .success 200 (st.users.map UserOutSchema.from_orm)) (ninjaUnauthorized _)

/-- Endpoint `GET /me` (`retrieve_authenticated_user`): serialize `request.auth`,
behind the auth gate (the `user is None` branch of the view raises 401). -/
def retrieve_authenticated_user (st : AppState) (tok : Token) (now : Nat) :
    ApiResult UserOutSchema :=
  bearerGate userAuthenticate st.users tok now
    (fun user =>
      match user with
      | some u => .success 200 (UserOutSchema.from_orm u)
      | none => .failure 401 "Authentication required")
    (ninjaUnauthorized _)

/-! ## Helper lemmas -/

/-- A search by a key that determines membership: if the keys of `l` are
distinct, `r` is in `l`, `r` satisfies the predicate, and every element
satisfying the predicate has the key of `r`, then `find?` returns `r`. -/
theorem find?_eq_some_of_unique_key {α β : Type} {f : α → β} {l : List α}
    {p : α → Bool} {r : α}
    (hnd : (l.map f).Nodup) (hr : r ∈ l) (hp : p r = true)
    (hkey : ∀ x, p x = true → f x = f r) : l.find? p = some r := by
  induction l with
  | nil => cases hr
  | cons a t ih =>
    rw [List.map_cons, List.nodup_cons] at hnd
    rcases List.mem_cons.mp hr with rfl | hmem
    · simp [List.find?_cons, hp]
    · by_cases hpa : p a = true
      · exact absurd (hkey a hpa ▸ List.mem_map_of_mem f hmem) hnd.1
      · rw [List.find?_cons, Bool.eq_false_iff.mpr hpa]
        exact ih hnd.2 hmem

/-- When no element of the first list matches, `find?` over an append is
`find?` over the second list. -/
theorem find?_append_of_left_none {α : Type} {p : α → Bool} {l₁ l₂ : List α}
    (h : ∀ x ∈ l₁, ¬ p x = true) : (l₁ ++ l₂).find? p = l₂.find? p := by
  rw [List.find?_append, List.find?_eq_none.mpr h, Option.none_or]

/-- The two `JWTAuth.authenticate` implementations (recipe API and user
API) agree on every input. -/
theorem userAuthenticate_eq_recipeAuthenticate (users : List User) (tok : Token) (now : Nat) :
    userAuthenticate users tok now = recipeAuthenticate users tok now := by
  unfold userAuthenticate recipeAuthenticate decode_jwt_token
  cases jwtDecode tok now <;> rfl

/-- The bearer gate rejects exactly when `authenticate` yields `None`. -/
theorem bearerGate_of_auth_none {α : Type} {auth : List User → Token → Nat → Option User}
    {users : List User} {tok : Token} {now : Nat}
    (hauth : auth users tok now = none) (view : Option User → α) (onReject : α) :
    bearerGate auth users tok now view onReject = onReject := by
  cases tok <;> simp [bearerGate, hauth]

/-- A missing bearer token never authenticates in the recipe API. -/
theorem recipeAuthenticate_missing (users : List User) (now : Nat) :
    recipeAuthenticate users Token.missing now = none := rfl

/-- The bearer gate runs the view on the resolved user when `authenticate`
succeeds. -/
theorem bearerGate_of_recipe_auth_some {α : Type}
    {users : List User} {tok : Token} {now : Nat} {u : User}
    (hauth : recipeAuthenticate users tok now = some u)
    (view : Option User → α) (onReject : α) :
    bearerGate recipeAuthenticate users tok now view onReject = view (some u) := by
  cases tok
  · rw [recipeAuthenticate_missing] at hauth; cases hauth
  all_goals simp [bearerGate, hauth]

/-- The user-API variant of `bearerGate_of_recipe_auth_some`. -/
theorem bearerGate_of_user_auth_some {α : Type}
    {users : List User} {tok : Token} {now : Nat} {u : User}
    (hauth : userAuthenticate users tok now = some u)
    (view : Option User → α) (onReject : α) :
    bearerGate userAuthenticate users tok now view onReject = view (some u) := by
  cases tok
  · rw [userAuthenticate_eq_recipeAuthenticate, recipeAuthenticate_missing] at hauth
    cases hauth
  all_goals simp [bearerGate, hauth]

/-! ## Concrete sample data -/

/-- A sample registered user. -/
def alice : User := ⟨1, "a@x.com", "testpass123", "A"⟩

/-- A second registered user. -/
def bob : User := ⟨2, "b@x.com", "password123", "B"⟩

/-- A recipe owned by `alice`. -/
def aliceRecipe : Recipe := ⟨1, 1, "T", 10, 5, "", ""⟩

/-- A recipe owned by `bob`. -/
def bobRecipe : Recipe := ⟨2, 2, "Soup", 3, 2, "d", "l"⟩

/-- A sample well-formed database state with two users and two recipes. -/
def sampleState : AppState := ⟨[alice, bob], [aliceRecipe, bobRecipe], 3, 3⟩

/-- A token correctly signed for `alice`, expiring at time 100. -/
def aliceToken : Token := .signed ⟨1, 100⟩

/-! ## Claims -/

/-- C1: a caller authenticated as `a` never sees or touches a recipe `r`
owned by another user: `r` is excluded from the list response, and `get`,
`update`, `delete` on its id answer exactly the `404 Recipe not found`
error — the very response a nonexistent id gets — leaving the state
unchanged; no 403 is ever produced. -/
theorem recipe_owner_isolation (st : AppState) (tok : Token) (now : Nat)
    (a : User) (r : Recipe) (p : RecipePartialUpdateSchema)
    (hwf : st.wf)
    (hauth : recipeAuthenticate st.users tok now = some a)
    (hr : r ∈ st.recipes) (hother : r.user_id ≠ a.id) :
    (∀ out, list_recipes st tok now = .success 200 out → r ∉ out) ∧
    get_recipe_detail st tok now r.id = .failure 404 "Recipe not found" ∧
    (update_recipe st tok now r.id p).1 = .failure 404 "Recipe not found" ∧
    (update_recipe st tok now r.id p).2 = st ∧
    (delete_recipe st tok now r.id).1 = .failure 404 "Recipe not found" ∧
    (delete_recipe st tok now r.id).2 = st ∧
    (∀ rid : Nat, (∀ x ∈ st.recipes, x.id ≠ rid) →
      get_recipe_detail st tok now rid = .failure 404 "Recipe not found") := by
  obtain ⟨-, hnd, -, -⟩ := hwf
  have hget : Recipe.objects_get st.recipes r.id a.id = none := by
    rw [Recipe.objects_get, List.find?_eq_none]
    intro x hx hpx
    rw [Bool.and_eq_true, beq_iff_eq, beq_iff_eq] at hpx
    have hxr : x = r := List.inj_on_of_nodup_map hnd hx hr hpx.1
    exact hother (hxr ▸ hpx.2)
  refine ⟨?_, ?_, ?_, ?_, ?_, ?_, ?_⟩
  · intro out hout hrout
    simp only [list_recipes, bearerGate_of_recipe_auth_some hauth, list_recipes_view,
      ApiResult.success.injEq, true_and] at hout
    subst hout
    rw [List.mem_filter] at hrout
    exact hother (by simpa using hrout.2)
  · simp only [get_recipe_detail, bearerGate_of_recipe_auth_some hauth,
      get_recipe_detail_view, hget]
  · simp only [update_recipe, bearerGate_of_recipe_auth_some hauth,
      update_recipe_view, hget]
  · simp only [update_recipe, bearerGate_of_recipe_auth_some hauth,
      update_recipe_view, hget]
  · simp only [delete_recipe, bearerGate_of_recipe_auth_some hauth,
      delete_recipe_view, hget]
  · simp only [delete_recipe, bearerGate_of_recipe_auth_some hauth,
      delete_recipe_view, hget]
  · intro rid hrid
    have hnone : Recipe.objects_get st.recipes rid a.id = none := by
      rw [Recipe.objects_get, List.find?_eq_none]
      intro x hx hpx
      rw [Bool.and_eq_true, beq_iff_eq, beq_iff_eq] at hpx
      exact hrid x hx hpx.1
    simp only [get_recipe_detail, bearerGate_of_recipe_auth_some hauth,
      get_recipe_detail_view, hnone]

/-- Closed instantiation of `recipe_owner_isolation`: alice asking for the
recipe of bob gets `404 Recipe not found`. -/
theorem recipe_owner_isolation_witness :
    get_recipe_detail sampleState aliceToken 50 bobRecipe.id = .failure 404 "Recipe not found" :=
  (recipe_owner_isolation sampleState aliceToken 50 alice bobRecipe
    ⟨some "X", none, none, none, none⟩ (by decide) (by decide) (by decide) (by decide)).2.1

/-- C2: a missing, malformed, badly signed, expired, or unknown-subject
bearer token is answered with the identical `401 Unauthorized` response on
every endpoint requiring authentication; in particular an expired but
otherwise well-formed token and an invalid one are never distinguished. -/
theorem auth_failure_uniform_401 (st : AppState) (tok : Token) (now : Nat)
    (rp : RecipeSchema) (pp : RecipePartialUpdateSchema) (rid uid : Nat)
    (nm : UserUpdateSchema) (pw : UserPasswordUpdateSchema)
    (hbad : tok = .missing ∨ tok = .malformed ∨ (∃ pl, tok = .badSignature pl) ∨
            (∃ pl, tok = .signed pl ∧ pl.exp < now) ∨
            (∃ pl, tok = .signed pl ∧ findUser st.users pl.user_id = none)) :
    list_recipes st tok now = .failure 401 "Unauthorized" ∧
    (create_recipe st tok now rp).1 = .failure 401 "Unauthorized" ∧
    get_recipe_detail st tok now rid = .failure 401 "Unauthorized" ∧
    (update_recipe st tok now rid pp).1 = .failure 401 "Unauthorized" ∧
    (delete_recipe st tok now rid).1 = .failure 401 "Unauthorized" ∧
    list_users st tok now = .failure 401 "Unauthorized" ∧
    (update_user_name st tok now uid nm).1 = .failure 401 "Unauthorized" ∧
    (update_user_password st tok now uid pw).1 = .failure 401 "Unauthorized" ∧
    retrieve_authenticated_user st tok now = .failure 401 "Unauthorized" := by
  have hra : recipeAuthenticate st.users tok now = none := by
    rcases hbad with rfl | rfl | ⟨pl, rfl⟩ | ⟨pl, rfl, hexp⟩ | ⟨pl, rfl, hfind⟩
    · rfl
    · rfl
    · rfl
    · simp [recipeAuthenticate, jwtDecode, hexp]
    · by_cases hexp : pl.exp < now <;> simp [recipeAuthenticate, jwtDecode, hexp, hfind]
  have hua : userAuthenticate st.users tok now = none := by
    rw [userAuthenticate_eq_recipeAuthenticate]; exact hra
  refine ⟨?_, ?_, ?_, ?_, ?_, ?_, ?_, ?_, ?_⟩
  · simp only [list_recipes, bearerGate_of_auth_none hra, ninjaUnauthorized]
  · simp only [create_recipe, bearerGate_of_auth_none hra, ninjaUnauthorized]
  · simp only [get_recipe_detail, bearerGate_of_auth_none hra, ninjaUnauthorized]
  · simp only [update_recipe, bearerGate_of_auth_none hra, ninjaUnauthorized]
  · simp only [delete_recipe, bearerGate_of_auth_none hra, ninjaUnauthorized]
  · simp only [list_users, bearerGate_of_auth_none hua, ninjaUnauthorized]
  · simp only [update_user_name, bearerGate_of_auth_none hua, ninjaUnauthorized]
  · simp only [update_user_password, bearerGate_of_auth_none hua, ninjaUnauthorized]
  · simp only [retrieve_authenticated_user, bearerGate_of_auth_none hua, ninjaUnauthorized]

/-- Closed instantiation of `auth_failure_uniform_401`: at time 200 the
token of alice (expiry 100) is expired, so even a password update whose
body would also fail schema validation (password `pw`) answers
`401 Unauthorized` — authentication runs first. -/
theorem auth_failure_uniform_401_witness :
    (update_user_password sampleState aliceToken 200 1 ⟨"pw"⟩).1 =
      .failure 401 "Unauthorized" :=
  (auth_failure_uniform_401 sampleState aliceToken 200 ⟨"T", 1, 1, "", ""⟩
    ⟨none, none, none, none, none⟩ 1 1 ⟨"N"⟩ ⟨"pw"⟩
    (Or.inr (Or.inr (Or.inr (Or.inl ⟨⟨1, 100⟩, rfl, by decide⟩))))).2.2.2.2.2.2.2.1

/-- C3: recipe creation answers 401 when no identity is resolved; for an
authenticated caller it fails with `400 Invalid payload` exactly when the
title is empty, `time_minutes` is negative, or `price` is negative, and
otherwise persists a new record carrying the submitted fields — hence
every persisted record has a non-empty title and non-negative numbers. -/
theorem create_recipe_validation (st : AppState) (tok : Token) (now : Nat)
    (payload : RecipeSchema) :
    (recipeAuthenticate st.users tok now = none →
      (create_recipe st tok now payload).1 = .failure 401 "Unauthorized" ∧
      (create_recipe st tok now payload).2 = st) ∧
    (∀ a, recipeAuthenticate st.users tok now = some a →
      (((create_recipe st tok now payload).1 = .failure 400 "Invalid payload") ↔
        (payload.title = "" ∨ payload.time_minutes < 0 ∨ payload.price < 0)) ∧
      (¬ (payload.title = "" ∨ payload.time_minutes < 0 ∨ payload.price < 0) →
        ∃ r : Recipe,
          create_recipe st tok now payload =
            (.success 200 (RecipeOutSchema.from_orm r),
             { st with recipes := st.recipes ++ [r],
                       nextRecipeId := st.nextRecipeId + 1 }) ∧
          r.user_id = a.id ∧ r.title = payload.title ∧
          r.time_minutes = payload.time_minutes ∧ r.price = payload.price ∧
          r.description = payload.description ∧ r.link = payload.link ∧
          r.title ≠ "" ∧ 0 ≤ r.time_minutes ∧ 0 ≤ r.price)) := by
  constructor
  · intro hnone
    constructor <;>
      simp only [create_recipe, bearerGate_of_auth_none hnone, ninjaUnauthorized]
  · intro a hauth
    by_cases hv : payload.title = "" ∨ payload.time_minutes < 0 ∨ payload.price < 0
    · have hred : create_recipe st tok now payload = (.failure 400 "Invalid payload", st) := by
        unfold create_recipe
        rw [bearerGate_of_recipe_auth_some hauth]
        simp only [create_recipe_view]
        rw [if_pos hv]
      refine ⟨?_, fun hnv => absurd hv hnv⟩
      rw [hred]
      exact iff_of_true rfl hv
    · have hred : create_recipe st tok now payload =
          (.success 200 (RecipeOutSchema.from_orm
             ⟨st.nextRecipeId, a.id, payload.title, payload.time_minutes,
              payload.price, payload.description, payload.link⟩),
           { st with
             recipes := st.recipes ++
               [⟨st.nextRecipeId, a.id, payload.title, payload.time_minutes,
                 payload.price, payload.description, payload.link⟩],
             nextRecipeId := st.nextRecipeId + 1 }) := by
        unfold create_recipe
        rw [bearerGate_of_recipe_auth_some hauth]
        simp only [create_recipe_view]
        rw [if_neg hv]
      push_neg at hv
      refine ⟨?_, fun _ => ⟨_, hred, rfl, rfl, rfl, rfl, rfl, rfl, hv.1, hv.2.1, hv.2.2⟩⟩
      rw [hred]
      refine iff_of_false (fun h => ApiResult.noConfusion h) ?_
      rintro (h | h | h)
      · exact hv.1 h
      · exact absurd h (not_lt.mpr hv.2.1)
      · exact absurd h (not_lt.mpr hv.2.2)

/-- Closed instantiation of `create_recipe_validation`: an empty title is
rejected with `400 Invalid payload`. -/
theorem create_recipe_validation_witness :
    (create_recipe sampleState aliceToken 50 ⟨"", 10, 5, "", ""⟩).1 =
      .failure 400 "Invalid payload" :=
  (((create_recipe_validation sampleState aliceToken 50 ⟨"", 10, 5, "", ""⟩).2
      alice (by decide)).1).mpr (Or.inl rfl)

/-- C4: patching an owned recipe succeeds and applies exactly the supplied
fields: each field present in the payload takes the supplied value, each
absent field keeps its stored value, the owner and the id are untouched,
and every other row survives unchanged. -/
theorem update_recipe_partial_semantics (st : AppState) (tok : Token) (now : Nat)
    (a : User) (r : Recipe) (p : RecipePartialUpdateSchema)
    (hwf : st.wf) (hauth : recipeAuthenticate st.users tok now = some a)
    (hr : r ∈ st.recipes) (hown : r.user_id = a.id) :
    update_recipe st tok now r.id p =
      (.success 200 (RecipeOutSchema.from_orm (applyPartialUpdate r p)),
       { st with recipes := saveRecipe st.recipes (applyPartialUpdate r p) }) ∧
    (∀ v, p.title = some v → (applyPartialUpdate r p).title = v) ∧
    (∀ v, p.time_minutes = some v → (applyPartialUpdate r p).time_minutes = v) ∧
    (∀ v, p.price = some v → (applyPartialUpdate r p).price = v) ∧
    (∀ v, p.description = some v → (applyPartialUpdate r p).description = v) ∧
    (∀ v, p.link = some v → (applyPartialUpdate r p).link = v) ∧
    (p.title = none → (applyPartialUpdate r p).title = r.title) ∧
    (p.time_minutes = none → (applyPartialUpdate r p).time_minutes = r.time_minutes) ∧
    (p.price = none → (applyPartialUpdate r p).price = r.price) ∧
    (p.description = none → (applyPartialUpdate r p).description = r.description) ∧
    (p.link = none → (applyPartialUpdate r p).link = r.link) ∧
    (applyPartialUpdate r p).user_id = r.user_id ∧
    (applyPartialUpdate r p).id = r.id ∧
    (∀ x ∈ st.recipes, x.id ≠ r.id → x ∈ saveRecipe st.recipes (applyPartialUpdate r p)) := by
  obtain ⟨-, hnd, -, -⟩ := hwf
  have hfind : Recipe.objects_get st.recipes r.id a.id = some r := by
    rw [Recipe.objects_get]
    apply find?_eq_some_of_unique_key hnd hr
    · simp [hown]
    · intro x hx
      rw [Bool.and_eq_true, beq_iff_eq, beq_iff_eq] at hx
      exact hx.1
  refine ⟨?_, ?_, ?_, ?_, ?_, ?_, ?_, ?_, ?_, ?_, ?_, rfl, rfl, ?_⟩
  · unfold update_recipe
    rw [bearerGate_of_recipe_auth_some hauth]
    simp only [update_recipe_view]
    rw [hfind]
  · intro v hv; simp [applyPartialUpdate, hv]
  · intro v hv; simp [applyPartialUpdate, hv]
  · intro v hv; simp [applyPartialUpdate, hv]
  · intro v hv; simp [applyPartialUpdate, hv]
  · intro v hv; simp [applyPartialUpdate, hv]
  · intro hv; simp [applyPartialUpdate, hv]
  · intro hv; simp [applyPartialUpdate, hv]
  · intro hv; simp [applyPartialUpdate, hv]
  · intro hv; simp [applyPartialUpdate, hv]
  · intro hv; simp [applyPartialUpdate, hv]
  · intro x hx hne
    unfold saveRecipe
    refine List.mem_map.mpr ⟨x, hx, ?_⟩
    rw [if_neg]
    simpa [applyPartialUpdate] using hne

/-- Closed instantiation of `update_recipe_partial_semantics`: the spec
scenario — patching only the title of the recipe of alice. -/
theorem update_recipe_partial_semantics_witness :
    update_recipe sampleState aliceToken 50 aliceRecipe.id ⟨some "T2", none, none, none, none⟩ =
      (.success 200 (RecipeOutSchema.from_orm
         (applyPartialUpdate aliceRecipe ⟨some "T2", none, none, none, none⟩)),
       { sampleState with
         recipes :=
           saveRecipe sampleState.recipes
             (applyPartialUpdate aliceRecipe ⟨some "T2", none, none, none, none⟩) }) :=
  (update_recipe_partial_semantics sampleState aliceToken 50 alice aliceRecipe
    ⟨some "T2", none, none, none, none⟩ (by decide) (by decide) (by decide) (by decide)).1

/-- C5: creating a recipe with a valid payload and then getting the
returned id yields a record whose title, time, price, description and
link are exactly the values supplied at creation. -/
theorem create_then_get_roundtrip (st : AppState) (tok : Token) (now : Nat)
    (a : User) (payload : RecipeSchema)
    (hwf : st.wf) (hauth : recipeAuthenticate st.users tok now = some a)
    (hvalid : ¬ (payload.title = "" ∨ payload.time_minutes < 0 ∨ payload.price < 0)) :
    ∃ (r : Recipe) (st' : AppState),
      create_recipe st tok now payload = (.success 200 (RecipeOutSchema.from_orm r), st') ∧
      get_recipe_detail st' tok now r.id = .success 200 r ∧
      r.title = payload.title ∧ r.time_minutes = payload.time_minutes ∧
      r.price = payload.price ∧ r.description = payload.description ∧
      r.link = payload.link := by
  obtain ⟨-, -, -, hlt⟩ := hwf
  set r : Recipe := ⟨st.nextRecipeId, a.id, payload.title, payload.time_minutes,
    payload.price, payload.description, payload.link⟩ with hrdef
  set st' : AppState :=
    { st with
      recipes := st.recipes ++ [r]
      nextRecipeId := st.nextRecipeId + 1 } with hstdef
  have hcreate : create_recipe st tok now payload =
      (.success 200 (RecipeOutSchema.from_orm r), st') := by
    unfold create_recipe
    rw [bearerGate_of_recipe_auth_some hauth]
    simp only [create_recipe_view]
    rw [if_neg hvalid]
  have hprtrue : (fun x : Recipe => x.id == r.id && x.user_id == a.id) r = true := by
    simp [hrdef]
  have hfind : Recipe.objects_get st'.recipes r.id a.id = some r := by
    rw [Recipe.objects_get]
    rw [show st'.recipes = st.recipes ++ [r] from rfl]
    rw [find?_append_of_left_none ?hnone]
    · simp only [List.find?_cons, hprtrue]
    case hnone =>
      intro x hx
      simp only [Bool.and_eq_true, beq_iff_eq, not_and]
      intro hid _
      exact absurd hid (Nat.ne_of_lt (hlt x hx))
  have hget : get_recipe_detail st' tok now r.id = .success 200 r := by
    unfold get_recipe_detail
    rw [bearerGate_of_recipe_auth_some (hauth : recipeAuthenticate st'.users tok now = some a)]
    simp only [get_recipe_detail_view]
    rw [hfind]
  exact ⟨r, st', hcreate, hget, rfl, rfl, rfl, rfl, rfl⟩

/-- Closed instantiation of `create_then_get_roundtrip` at a concrete
valid payload. -/
theorem create_then_get_roundtrip_witness :
    ∃ (r : Recipe) (st' : AppState),
      create_recipe sampleState aliceToken 50 ⟨"Sample", 30, 6, "desc", "lnk"⟩ =
        (.success 200 (RecipeOutSchema.from_orm r), st') ∧
      get_recipe_detail st' aliceToken 50 r.id = .success 200 r ∧
      r.title = "Sample" ∧ r.time_minutes = 30 ∧ r.price = 6 ∧
      r.description = "desc" ∧ r.link = "lnk" :=
  create_then_get_roundtrip sampleState aliceToken 50 alice
    ⟨"Sample", 30, 6, "desc", "lnk"⟩ (by decide) (by decide) (by decide)

/-- C6: deleting an owned recipe succeeds with 200, after which every
authenticated caller receives `404 Recipe not found` from both `get` and a
repeated `delete` on that id — the second delete reports failure and
leaves the state unchanged, so deletion is not idempotent success. -/
theorem delete_then_404 (st : AppState) (tok : Token) (now : Nat)
    (a : User) (r : Recipe)
    (hwf : st.wf) (hauth : recipeAuthenticate st.users tok now = some a)
    (hr : r ∈ st.recipes) (hown : r.user_id = a.id) :
    ∃ st' : AppState,
      delete_recipe st tok now r.id = (.success 200 (), st') ∧
      ∀ (tok2 : Token) (now2 : Nat) (b : User),
        recipeAuthenticate st'.users tok2 now2 = some b →
          get_recipe_detail st' tok2 now2 r.id = .failure 404 "Recipe not found" ∧
          (delete_recipe st' tok2 now2 r.id).1 = .failure 404 "Recipe not found" ∧
          (delete_recipe st' tok2 now2 r.id).2 = st' := by
  obtain ⟨-, hnd, -, -⟩ := hwf
  have hfind : Recipe.objects_get st.recipes r.id a.id = some r := by
    rw [Recipe.objects_get]
    apply find?_eq_some_of_unique_key hnd hr
    · simp [hown]
    · intro x hx
      rw [Bool.and_eq_true, beq_iff_eq, beq_iff_eq] at hx
      exact hx.1
  refine ⟨{ st with recipes := deleteRecipeById st.recipes r.id }, ?_, ?_⟩
  · unfold delete_recipe
    rw [bearerGate_of_recipe_auth_some hauth]
    simp only [delete_recipe_view]
    rw [hfind]
  · intro tok2 now2 b hb
    have hnone : ∀ uid, Recipe.objects_get (deleteRecipeById st.recipes r.id) r.id uid = none := by
      intro uid
      rw [Recipe.objects_get, List.find?_eq_none]
      intro x hx hpx
      rw [Bool.and_eq_true, beq_iff_eq, beq_iff_eq] at hpx
      rw [deleteRecipeById, List.mem_filter] at hx
      have hneq : x.id ≠ r.id := by simpa using hx.2
      exact hneq hpx.1
    refine ⟨?_, ?_, ?_⟩
    · unfold get_recipe_detail
      rw [bearerGate_of_recipe_auth_some hb]
      simp only [get_recipe_detail_view]
      rw [hnone b.id]
    · unfold delete_recipe
      rw [bearerGate_of_recipe_auth_some hb]
      simp only [delete_recipe_view]
      rw [hnone b.id]
    · unfold delete_recipe
      rw [bearerGate_of_recipe_auth_some hb]
      simp only [delete_recipe_view]
      rw [hnone b.id]

/-- Closed instantiation of `delete_then_404`: alice deletes her recipe;
afterwards gets and deletes on the same id answer 404. -/
theorem delete_then_404_witness :
    ∃ st' : AppState,
      delete_recipe sampleState aliceToken 50 aliceRecipe.id = (.success 200 (), st') ∧
      ∀ (tok2 : Token) (now2 : Nat) (b : User),
        recipeAuthenticate st'.users tok2 now2 = some b →
          get_recipe_detail st' tok2 now2 aliceRecipe.id = .failure 404 "Recipe not found" ∧
          (delete_recipe st' tok2 now2 aliceRecipe.id).1 = .failure 404 "Recipe not found" ∧
          (delete_recipe st' tok2 now2 aliceRecipe.id).2 = st' :=
  delete_then_404 sampleState aliceToken 50 alice aliceRecipe
    (by decide) (by decide) (by decide) (by decide)

/-- C7: registration rejects with 400 any email that exactly,
case-sensitively, matches a stored one, creating no new identity (the
state is unchanged), while a registration with a different email succeeds
with 201 and stores the new identity. -/
theorem create_user_duplicate_email (st : AppState) (p q : UserCreateSchema)
    (hp5 : ¬ p.password.length < 5) (hq5 : ¬ q.password.length < 5)
    (hdup : ∃ u ∈ st.users, u.email = p.email)
    (hfresh : ∀ u ∈ st.users, u.email ≠ q.email) :
    (create_user st p).1 = .failure 400 "User with this email already exists." ∧
    (create_user st p).2 = st ∧
    ∃ (out : UserOutSchema) (st' : AppState),
      create_user st q = (.success 201 out, st') ∧
      out.email = q.email ∧ out.name = q.name ∧
      ∃ u ∈ st'.users, u.email = q.email := by
  have hany : st.users.any (fun u => u.email == p.email) = true := by
    rw [List.any_eq_true]
    obtain ⟨u, hu, he⟩ := hdup
    exact ⟨u, hu, by simpa using he⟩
  have hanyq : st.users.any (fun u => u.email == q.email) = false := by
    rw [Bool.eq_false_iff]
    intro hq
    rw [List.any_eq_true] at hq
    obtain ⟨u, hu, he⟩ := hq
    exact hfresh u hu (by simpa using he)
  refine ⟨?_, ?_, ?_⟩
  · simp [create_user, hp5, hany]
  · simp [create_user, hp5, hany]
  · refine ⟨⟨q.email, q.name⟩,
      { st with users := st.users ++ [⟨st.nextUserId, q.email, q.password, q.name⟩],
                nextUserId := st.nextUserId + 1 }, ?_, rfl, rfl, ?_⟩
    · simp [create_user, hq5, hanyq, UserOutSchema.from_orm]
    · exact ⟨⟨st.nextUserId, q.email, q.password, q.name⟩,
        List.mem_append_right _ (List.mem_singleton_self _), rfl⟩

/-- Closed instantiation of `create_user_duplicate_email`: re-registering
the stored email of alice fails with 400 and changes nothing, while a
fresh email is accepted. -/
theorem create_user_duplicate_email_witness :
    (create_user sampleState ⟨"a@x.com", "otherpass", "A2"⟩).1 =
      .failure 400 "User with this email already exists." ∧
    (create_user sampleState ⟨"a@x.com", "otherpass", "A2"⟩).2 = sampleState ∧
    ∃ (out : UserOutSchema) (st' : AppState),
      create_user sampleState ⟨"c@x.com", "goodpass", "C"⟩ = (.success 201 out, st') ∧
      out.email = "c@x.com" ∧ out.name = "C" ∧
      ∃ u ∈ st'.users, u.email = "c@x.com" :=
  create_user_duplicate_email sampleState ⟨"a@x.com", "otherpass", "A2"⟩
    ⟨"c@x.com", "goodpass", "C"⟩ (by decide) (by decide)
    ⟨alice, by decide, rfl⟩ (by decide)

/-- C8: a registration whose password is shorter than 5 characters is
rejected with 422 by the schema layer, and the state — in particular the
stored set of users — is unchanged by the failed request. -/
theorem create_user_short_password (st : AppState) (p : UserCreateSchema)
    (hshort : p.password.length < 5) :
    (create_user st p).1 = .failure 422 "Unprocessable Entity" ∧
    (create_user st p).2 = st := by
  constructor <;> simp [create_user, hshort, ninjaValidationError]

/-- Closed instantiation of `create_user_short_password` at the payload of
the repository test (password `pw`). -/
theorem create_user_short_password_witness :
    (create_user sampleState ⟨"new@x.com", "pw", "N"⟩).1 =
      .failure 422 "Unprocessable Entity" ∧
    (create_user sampleState ⟨"new@x.com", "pw", "N"⟩).2 = sampleState :=
  create_user_short_password sampleState ⟨"new@x.com", "pw", "N"⟩ (by decide)

/-- C9: the user-update endpoints perform no ownership check: any
authenticated caller — the token subject may be a different user — patches
the name or the password of any existing user id with 200, mutating that
user; the only failure for an authenticated caller is 404 on an id with no
user. -/
theorem user_update_no_ownership_check (st : AppState) (tok : Token) (now : Nat)
    (caller : User) (uid : Nat) (nm : UserUpdateSchema) (pw : UserPasswordUpdateSchema)
    (hnd : (st.users.map User.id).Nodup)
    (hauth : userAuthenticate st.users tok now = some caller)
    (hpw : ¬ pw.password.length < 5) :
    (∀ u ∈ st.users, u.id = uid →
      update_user_name st tok now uid nm =
        (.success 200 ⟨u.email, nm.name⟩,
         { st with users := saveUser st.users { u with name := nm.name } }) ∧
      update_user_password st tok now uid pw =
        (.success 200 ⟨u.email, u.name⟩,
         { st with users := saveUser st.users { u with password := pw.password } })) ∧
    ((∀ u ∈ st.users, u.id ≠ uid) →
      (update_user_name st tok now uid nm).1 = .failure 404 "User not found" ∧
      (update_user_password st tok now uid pw).1 = .failure 404 "User not found") := by
  constructor
  · intro u hu huid
    have hfind : findUser st.users uid = some u := by
      rw [findUser]
      apply find?_eq_some_of_unique_key hnd hu
      · simp [huid]
      · intro x hx
        rw [beq_iff_eq] at hx
        rw [hx]
        exact huid.symm
    constructor
    · unfold update_user_name
      rw [bearerGate_of_user_auth_some hauth]
      simp only [update_user_name_view]
      rw [hfind]
      rfl
    · unfold update_user_password
      rw [bearerGate_of_user_auth_some hauth]
      rw [if_neg hpw]
      simp only [update_user_password_view]
      rw [hfind]
      rfl
  · intro hno
    have hfind : findUser st.users uid = none := by
      rw [findUser, List.find?_eq_none]
      intro x hx hpx
      exact hno x hx (by simpa using hpx)
    constructor
    · unfold update_user_name
      rw [bearerGate_of_user_auth_some hauth]
      simp only [update_user_name_view]
      rw [hfind]
    · unfold update_user_password
      rw [bearerGate_of_user_auth_some hauth]
      rw [if_neg hpw]
      simp only [update_user_password_view]
      rw [hfind]

/-- Closed instantiation of `user_update_no_ownership_check`: alice,
holding only her own token, renames bob with 200. -/
theorem user_update_no_ownership_check_witness :
    update_user_name sampleState aliceToken 50 2 ⟨"NewB"⟩ =
      (.success 200 ⟨bob.email, "NewB"⟩,
       { sampleState with
         users := saveUser sampleState.users { bob with name := "NewB" } }) :=
  ((user_update_no_ownership_check sampleState aliceToken 50 alice 2 ⟨"NewB"⟩
      ⟨"newpass123"⟩ (by decide) (by decide) (by decide)).1 bob (by decide) rfl).1

/-- C10: recipe update applies no field validation: patching an owned
recipe with an empty title, a negative `time_minutes` and a negative
`price` succeeds with 200 and persists those values, although `create`
rejects the same values with `400 Invalid payload`. -/
theorem update_recipe_no_validation (st : AppState) (tok : Token) (now : Nat)
    (a : User) (r : Recipe) (t : String) (tm : Int) (pr : ℚ)
    (hwf : st.wf) (hauth : recipeAuthenticate st.users tok now = some a)
    (hr : r ∈ st.recipes) (hown : r.user_id = a.id) :
    (update_recipe st tok now r.id ⟨some t, some tm, some pr, none, none⟩).1 =
      .success 200 (RecipeOutSchema.from_orm
        (applyPartialUpdate r ⟨some t, some tm, some pr, none, none⟩)) ∧
    (∃ r' ∈ (update_recipe st tok now r.id ⟨some t, some tm, some pr, none, none⟩).2.recipes,
      r'.id = r.id ∧ r'.title = t ∧ r'.time_minutes = tm ∧ r'.price = pr) ∧
    ((t = "" ∨ tm < 0 ∨ pr < 0) →
      ∀ d l, (create_recipe st tok now ⟨t, tm, pr, d, l⟩).1 =
        .failure 400 "Invalid payload") := by
  obtain ⟨-, hnd, -, -⟩ := hwf
  have hfind : Recipe.objects_get st.recipes r.id a.id = some r := by
    rw [Recipe.objects_get]
    apply find?_eq_some_of_unique_key hnd hr
    · simp [hown]
    · intro x hx
      rw [Bool.and_eq_true, beq_iff_eq, beq_iff_eq] at hx
      exact hx.1
  have hred : update_recipe st tok now r.id ⟨some t, some tm, some pr, none, none⟩ =
      (.success 200 (RecipeOutSchema.from_orm
         (applyPartialUpdate r ⟨some t, some tm, some pr, none, none⟩)),
       { st with
         recipes := saveRecipe st.recipes
           (applyPartialUpdate r ⟨some t, some tm, some pr, none, none⟩) }) := by
    unfold update_recipe
    rw [bearerGate_of_recipe_auth_some hauth]
    simp only [update_recipe_view]
    rw [hfind]
  refine ⟨by rw [hred], ?_, ?_⟩
  · refine ⟨applyPartialUpdate r ⟨some t, some tm, some pr, none, none⟩, ?_, rfl, rfl, rfl, rfl⟩
    rw [hred]
    unfold saveRecipe
    exact List.mem_map.mpr ⟨r, hr, by simp [applyPartialUpdate]⟩
  · intro hv d l
    unfold create_recipe
    rw [bearerGate_of_recipe_auth_some hauth]
    simp only [create_recipe_view]
    rw [if_pos hv]

/-- Closed instantiation of `update_recipe_no_validation`: alice patches
her recipe to an empty title, time -1 and price -2, and gets 200. -/
theorem update_recipe_no_validation_witness :
    (update_recipe sampleState aliceToken 50 aliceRecipe.id
        ⟨some "", some (-1), some (-2), none, none⟩).1 =
      .success 200 (RecipeOutSchema.from_orm
        (applyPartialUpdate aliceRecipe ⟨some "", some (-1), some (-2), none, none⟩)) :=
  (update_recipe_no_validation sampleState aliceToken 50 alice aliceRecipe "" (-1) (-2)
    (by decide) (by decide) (by decide) (by decide)).1
